import Mathlib

/-!
Verification of the authentication / session-lifecycle subsystem of the
Todo_List-PWA repository, as a shallow embedding in Lean 4.

Embedded source files:
* `src/apps/backend/src/v1/routes/auth.ts` — the Elysia route tables
  `authRoute`, `passwordResetRoute`, `emailVerificationRoute`, each
  composed by chaining plugin installation (`.use`) and route
  registration (`.post` / `.get`).
* `src/unnamed/part_000` — the client `AuthProvider`: rehydration
  (`getUser`), `signIn`, `createUser`, `signOut`, and the route guard
  `useProtectedRoute`.
* `src/src/App.tsx` (second document) — the zustand user store with its
  `setUser` mutator.

External library behaviour that the repository only configures
(`elysia-rate-limit` counting, JSON/schema parsing of the stored
credential blob, the secure store) is modelled from the specification,
as marked on the individual definitions.
-/

namespace TodoPWA

/-! Section: Backend: route tables and rate limiting (`src/apps/backend/src/v1/routes/auth.ts`) -/

/-- HTTP method of a registered route. -/
inductive Method where
  | get
  | post
deriving DecidableEq

/-- Scoping mode passed to the rate-limit plugin (`scoping: "scoped"` in the source). -/
inductive Scoping where
  | globalScope
  | scoped
deriving DecidableEq

/-- Key generator passed to the rate-limit plugin.  The source always passes
`rateLimiterkeyGenerator` (imported from `@/libs/rate-limiter-key-generator`). -/
inductive KeyGen where
  | rateLimiterkeyGenerator
deriving DecidableEq

/-- Options object handed to `rateLimit({...})`.  `countFailedRequest`
defaults to `false` when the source omits it, as on `authRoute`. -/
structure RateLimitOptions where
  max : Nat
  scoping : Scoping
  generator : KeyGen
  countFailedRequest : Bool
deriving DecidableEq

/-- A route registered on an Elysia instance: method, full path, the
rate-limit options in force when it was registered (none when the
instance had no rate-limit plugin installed yet), and the name of the
body validation schema, when one is attached. -/
structure Route where
  method : Method
  path : String
  limit : Option RateLimitOptions
  bodySchema : Option String
deriving DecidableEq

/-- An Elysia instance under construction: its path base (`prefix` option),
the rate-limit options currently installed by `.use(rateLimit(...))` (they
apply to every route registered afterwards on the same instance — with
`scoping: "scoped"` the plugin is local to this instance but guards all of
its routes), and the routes registered so far. -/
structure ElysiaApp where
  basePath : String
  currentLimit : Option RateLimitOptions
  routes : List Route
deriving DecidableEq

/-- `new Elysia({ prefix })`. -/
def ElysiaApp.new (basePath : String) : ElysiaApp :=
  ⟨basePath, none, []⟩

/-- `.use(errorHandlerInstance)` — no effect on routing or rate limits. -/
def ElysiaApp.useErrorHandler (app : ElysiaApp) : ElysiaApp := app

/-- `.use(bearer())` — no effect on routing or rate limits. -/
def ElysiaApp.useBearer (app : ElysiaApp) : ElysiaApp := app

/-- `.derive(deriveUser)` — no effect on routing or rate limits. -/
def ElysiaApp.deriveUser (app : ElysiaApp) : ElysiaApp := app

/-- `.use(rateLimit(opts))`: installs the rate limiter on this instance;
routes registered after this call are guarded by it. -/
def ElysiaApp.useRateLimit (app : ElysiaApp) (opts : RateLimitOptions) : ElysiaApp :=
  { app with currentLimit := some opts }

/-- `.post(path, handler, { body })` / `.post(path, handler)`. -/
def ElysiaApp.post (app : ElysiaApp) (path : String) (bodySchema : Option String) : ElysiaApp :=
  { app with routes := app.routes ++ [⟨Method.post, app.basePath ++ path, app.currentLimit, bodySchema⟩] }

/-- `.get(path, handler)`. -/
def ElysiaApp.getRoute (app : ElysiaApp) (path : String) : ElysiaApp :=
  { app with routes := app.routes ++ [⟨Method.get, app.basePath ++ path, app.currentLimit, none⟩] }

/-- The rate-limit options object passed inline in `authRoute`
(`max: 5, scoping: "scoped", generator: rateLimiterkeyGenerator`,
`countFailedRequest` left at its default `false`). -/
def authLimiter : RateLimitOptions :=
  ⟨5, Scoping.scoped, KeyGen.rateLimiterkeyGenerator, false⟩

/-- The rate-limit options object passed inline in `passwordResetRoute`
and `emailVerificationRoute` (`max: 3, scoping: "scoped"`,
`generator: rateLimiterkeyGenerator, countFailedRequest: true`). -/
def tokenLimiter : RateLimitOptions :=
  ⟨3, Scoping.scoped, KeyGen.rateLimiterkeyGenerator, true⟩

/-- `authRoute` from `src/apps/backend/src/v1/routes/auth.ts`, lines 25–43. -/
def authRoute : ElysiaApp :=
  ((((((((ElysiaApp.new "/auth").useErrorHandler).useBearer).useRateLimit authLimiter).post
      "/register" (some "registerUserSchema")).post
      "/login" (some "loginUserSchema")).post
      "/logout" (some "logoutSchema")).post
      "/logout-all" none).getRoute
      "/profile"

/-- `passwordResetRoute` from `src/apps/backend/src/v1/routes/auth.ts`, lines 45–59. -/
def passwordResetRoute : ElysiaApp :=
  (((((ElysiaApp.new "/auth").useBearer).useErrorHandler).useRateLimit tokenLimiter).post
      "/reset-password" (some "passwordResetSchema")).post
      "/reset-password/:token" (some "passwordResetTokenSchema")

/-- `emailVerificationRoute` from `src/apps/backend/src/v1/routes/auth.ts`, lines 61–75. -/
def emailVerificationRoute : ElysiaApp :=
  (((((ElysiaApp.new "/auth").useBearer).useErrorHandler).deriveUser).useRateLimit tokenLimiter).post
      "/email-verification" (some "emailVerificationSchema")

/-- Look up a registered route by method and full path. -/
def ElysiaApp.findRoute (app : ElysiaApp) (m : Method) (p : String) : Option Route :=
  app.routes.find? (fun r => decide (r.method = m) && decide (r.path = p))

/-- The rate-limit options guarding a given route (none when the route does
not exist or is unguarded). -/
def routeLimit (app : ElysiaApp) (m : Method) (p : String) : Option RateLimitOptions :=
  match app.findRoute m p with
  | some r => r.limit
  | none => none

/-- Outcome of a request as far as the rate limiter is concerned. -/
inductive Outcome where
  | allowed
  | rateLimitExceeded
deriving DecidableEq

/-- Modelled from the spec (§4.2 RateLimiter; the `elysia-rate-limit`
implementation itself is not part of the repository): whether a request
with handler result `ok` increments the counter.  Endpoints configured
with `countFailedRequest` count only failed attempts; otherwise every
request counts. -/
def countsRequest (opts : RateLimitOptions) (ok : Bool) : Bool :=
  if opts.countFailedRequest then !ok else true

/-- Modelled from the spec (§4.2): process a sequence of same-key requests
within one rate-limit window.  `count` is the counter for that key; a
request is rejected with `rateLimitExceeded` (before any side effect)
once the counter has reached `max`; otherwise it is allowed and the
counter is incremented when `countsRequest` says so.  `oks` lists the
handler outcome (success/failure) of each allowed request in order. -/
def processRequests (limit : Option RateLimitOptions) : Nat → List Bool → List Outcome
  | _, [] => []
  | count, ok :: rest =>
    match limit with
    | none => Outcome.allowed :: processRequests none count rest
    | some opts =>
      if opts.max ≤ count then
        Outcome.rateLimitExceeded :: processRequests (some opts) count rest
      else
        Outcome.allowed ::
          processRequests (some opts) (count + (if countsRequest opts ok then 1 else 0)) rest

/-! Section: Client: auth provider (`src/unnamed/part_000`) -/

/-- Modelled from the spec (§3 Data Model; the `userSchema` module
`@/lib/validations/user` is not part of the provided sources): the
client-side user record published into `AuthState`. -/
structure User where
  id : Nat
  email : String
deriving DecidableEq

/-- Modelled from the spec (§6; `JSON.parse`/`JSON.stringify` and
`userSchema.parse` live outside the provided sources): a stored
credential blob is a string; we model it by its parse outcome — either
the serialization of a valid `User`, or a malformed value on which
`JSON.parse` / `userSchema.parse` throws. -/
inductive Blob where
  | valid (u : User)
  | malformed
deriving DecidableEq

/-- `JSON.stringify(res)` on an API user response, as a blob. -/
def serializeUser (u : User) : Blob := Blob.valid u

/-- The client-visible state the claims quantify over: the secure store
value under `USER_SESSION_KEY` (none when the key is absent) and the
in-memory `AuthState` user (`useUserStore`'s `user`, null initially).
The `initializing` flag of `AuthProvider` only gates rendering and is
not part of this state. -/
structure ClientState where
  store : Option Blob
  user : Option User
deriving DecidableEq

/-- Error raised out of `getUser` when `JSON.parse` or `userSchema.parse`
throws on the stored value. -/
inductive RehydrateError where
  | parseError
deriving DecidableEq

/-- `getUser` (`src/unnamed/part_000`, lines 70–77): read the secure value;
a missing (falsy) value returns silently; otherwise parse it and publish
the user via `setUser`.  A parse failure propagates as an exception —
the `.finally` in the calling effect runs `setInitializing(false)` but
nothing catches the rejection and nothing deletes the stored key.  The
returned state is the client state after the call (unchanged when the
parse throws, since no delete is executed). -/
def getUser (s : ClientState) : Except RehydrateError Unit × ClientState :=
  match s.store with
  | none => (Except.ok (), s)
  | some (Blob.valid u) => (Except.ok (), { s with user := some u })
  | some Blob.malformed => (Except.error RehydrateError.parseError, s)

/-- A failure of the API call, as discriminated by the `catch` blocks:
an `APIError` carries a server message; anything else (network failure,
storage failure) toasts "Something went wrong". -/
inductive ApiFailure where
  | apiError (message : String)
  | otherError
deriving DecidableEq

/-- The toast text the `catch` block of `signIn`/`createUser` shows for a
failure: `error.message` for an `APIError`, else "Something went wrong". -/
def toastForFailure : ApiFailure → String
  | ApiFailure.apiError m => m
  | ApiFailure.otherError => "Something went wrong"

/-- Observable client-side events, in execution order. -/
inductive Ev where
  | apiCallEv
  | persistEv
  | publishEv
  | toastEv (message : String)
deriving DecidableEq

/-- `signIn` (`src/unnamed/part_000`, lines 85–99).  `api` is the outcome
of `API.post("/v1/auth/login", ...)`; `persistOk` is whether the awaited
`setSecureValue` succeeds (a throw there is caught by the same `catch`,
which toasts "Something went wrong" since a storage error is not an
`APIError`).  Returns the resulting client state and the event trace:
on success the token is persisted (`setSecureValue`) and then the user
is published (`setUser`); on any failure nothing is written and the
user is unchanged. -/
def signIn (api : Except ApiFailure User) (persistOk : Bool) (s : ClientState) :
    ClientState × List Ev :=
  match api with
  | Except.error e => (s, [Ev.apiCallEv, Ev.toastEv (toastForFailure e)])
  | Except.ok u =>
    if persistOk then
      ({ s with store := some (serializeUser u), user := some u },
        [Ev.apiCallEv, Ev.persistEv, Ev.publishEv])
    else
      (s, [Ev.apiCallEv, Ev.toastEv "Something went wrong"])

/-- `createUser` (`src/unnamed/part_000`, lines 101–115): identical flow to
`signIn` against `API.post("/v1/auth/register", ...)`. -/
def createUser (api : Except ApiFailure User) (persistOk : Bool) (s : ClientState) :
    ClientState × List Ev :=
  match api with
  | Except.error e => (s, [Ev.apiCallEv, Ev.toastEv (toastForFailure e)])
  | Except.ok u =>
    if persistOk then
      ({ s with store := some (serializeUser u), user := some u },
        [Ev.apiCallEv, Ev.persistEv, Ev.publishEv])
    else
      (s, [Ev.apiCallEv, Ev.toastEv "Something went wrong"])

/-- Result of a `signOut` call: the client state afterwards, whether the
secure-store delete was ever attempted, and the toasts shown. -/
structure SignOutRes where
  state : ClientState
  deleteAttempted : Bool
  toasts : List String
deriving DecidableEq

/-- `signOut` (`src/unnamed/part_000`, lines 117–128).  `apiOk` is whether
`await API.post("/v1/auth/logout")` succeeds; when it throws, control
jumps straight to the `catch` (toast "Failed to logout") without
touching the secure store or `AuthState`.  `deleteSecureValue` is
modelled from the spec (§4.6): it removes the key and returns whether it
was present; when it returns false the code throws "Unable to logout",
which the same `catch` turns into the toast, leaving the user
unpublished.  Only when both the API call and the delete succeed is
`setUser(null)` reached. -/
def signOut (apiOk : Bool) (s : ClientState) : SignOutRes :=
  if apiOk then
    let wasPresent := s.store.isSome
    if wasPresent then
      ⟨⟨none, none⟩, true, []⟩
    else
      ⟨{ s with store := none }, true, ["Failed to logout"]⟩
  else
    ⟨s, false, ["Failed to logout"]⟩

/-! Section: Client: route guard (`src/unnamed/part_000`, lines 38–61) -/

/-- The root navigation state observed by the guard; `key` is its `key`
field.  The guard reads it through the optional chain
`navigationState?.key`. -/
structure NavState where
  key : String
deriving DecidableEq

/-- Truthiness of `navigationState?.key`: false when the navigation state
is absent or its key is the empty string. -/
def navReady : Option NavState → Bool
  | none => false
  | some ns => !(decide (ns.key = ""))

/-- Redirect decision of the guard effect. -/
inductive GuardAction where
  | noAction
  | toSignIn
  | toHome
deriving DecidableEq

/-- The effect body of `useProtectedRoute` (`src/unnamed/part_000`,
lines 42–60): bail out while `!navigationState?.key`; otherwise compute
`inAuthGroup` from `segments[0] === "(auth)"` and redirect to
`"/sign-in"` when signed out outside the auth group, to `"/"` when
signed in inside it, and do nothing otherwise. -/
def useProtectedRoute (user : Option User) (segments : List String)
    (nav : Option NavState) : GuardAction :=
  if !(navReady nav) then
    GuardAction.noAction
  else
    let inAuthGroup := decide (segments.head? = some "(auth)")
    if !user.isSome && !inAuthGroup then
      GuardAction.toSignIn
    else if user.isSome && inAuthGroup then
      GuardAction.toHome
    else
      GuardAction.noAction

/-- The decision table the specification describes, stated as a function
of (navigation readiness, signed-in?, in-auth-group?) — written from the
spec's words, to be compared with `useProtectedRoute`. -/
def guardSpec (ready signedIn inAuthGroup : Bool) : GuardAction :=
  if !ready then GuardAction.noAction
  else if !signedIn && !inAuthGroup then GuardAction.toSignIn
  else if signedIn && inAuthGroup then GuardAction.toHome
  else GuardAction.noAction

/-! Section: Client: user store (`src/src/App.tsx`, second document, lines 88–134) -/

/-- The data fields of the zustand `useUserStore` state (its function
fields `setUser`/`setIsSignUp` are fixed closures, never replaced by any
`set` call in the source). -/
structure UserState where
  user : Option User
  isSignUp : Bool
deriving DecidableEq

/-- The first argument of `setUser`: a literal `User | null`, or an updater
function of the previous value (which returns a non-null `User`). -/
inductive SetUserArg where
  | value (u : Option User)
  | updater (f : Option User → User)

/-- `setUser` from the store (`src/src/App.tsx`, second document,
lines 114–129): resolve a functional argument against the current user,
then `set` either `{ user, isSignUp }` when `isSignUp` was passed, or
`{ user }` alone when it was omitted (zustand's `set` merges the partial
object into the state). -/
def setUser (arg : SetUserArg) (isSignUp : Option Bool) (st : UserState) : UserState :=
  match arg with
  | SetUserArg.updater f =>
    match isSignUp with
    | some b => { st with user := some (f st.user), isSignUp := b }
    | none => { st with user := some (f st.user) }
  | SetUserArg.value u =>
    match isSignUp with
    | some b => { st with user := u, isSignUp := b }
    | none => { st with user := u }

/-- The user value `setUser` stores for a given argument and previous user. -/
def newUserOf (arg : SetUserArg) (prev : Option User) : Option User :=
  match arg with
  | SetUserArg.value u => u
  | SetUserArg.updater f => some (f prev)

/-! Section: Client: reachable states (`AuthProvider` as a transition system) -/

/-- One client-side operation, with its environment-chosen outcome:
a sign-in or registration attempt (API result plus whether the secure
write succeeds), a sign-out attempt (whether the server logout call
succeeds), or an app restart followed by rehydration (a fresh process
starts with a null in-memory user, then runs `getUser`). -/
inductive Op where
  | signInOp (api : Except ApiFailure User) (persistOk : Bool)
  | createUserOp (api : Except ApiFailure User) (persistOk : Bool)
  | signOutOp (apiOk : Bool)
  | restartRehydrateOp

/-- The client state after one operation. -/
def step (op : Op) (s : ClientState) : ClientState :=
  match op with
  | Op.signInOp api p => (signIn api p s).1
  | Op.createUserOp api p => (createUser api p s).1
  | Op.signOutOp apiOk => (signOut apiOk s).state
  | Op.restartRehydrateOp => (getUser { s with user := none }).2

/-- A fresh install: no stored credential, no in-memory user. -/
def initialClientState : ClientState := ⟨none, none⟩

/-- The client state after running a sequence of operations from a fresh
install. -/
def runOps (ops : List Op) : ClientState :=
  ops.foldl (fun s op => step op s) initialClientState

/-! Section: Invariant plumbing for the reachable-state claim -/

/-- The invariant maintained by the client operations: the in-memory user
is present exactly when the secure store holds a value, and the store
never holds a malformed blob (the operations only ever write
serializations of valid users). -/
def ClientInv (s : ClientState) : Prop :=
  s.user.isSome = s.store.isSome ∧ s.store ≠ some Blob.malformed

theorem step_preserves_inv (op : Op) (s : ClientState) (h : ClientInv s) :
    ClientInv (step op s) := by
  obtain ⟨hEq, hWf⟩ := h
  rcases s with ⟨st, u⟩
  cases op with
  | signInOp api p =>
    cases api with
    | error e => exact ⟨hEq, hWf⟩
    | ok v =>
      cases p
      · exact ⟨hEq, hWf⟩
      · exact ⟨rfl, by simp [step, signIn, serializeUser]⟩
  | createUserOp api p =>
    cases api with
    | error e => exact ⟨hEq, hWf⟩
    | ok v =>
      cases p
      · exact ⟨hEq, hWf⟩
      · exact ⟨rfl, by simp [step, createUser, serializeUser]⟩
  | signOutOp apiOk =>
    cases apiOk
    · exact ⟨hEq, hWf⟩
    · cases st
      · have hu : u = none := by
          simpa using hEq
        subst hu
        exact ⟨rfl, by simp [step, signOut]⟩
      · exact ⟨rfl, by simp [step, signOut]⟩
  | restartRehydrateOp =>
    cases st with
    | none => exact ⟨rfl, hWf⟩
    | some b =>
      cases b with
      | valid v => exact ⟨rfl, hWf⟩
      | malformed => exact absurd rfl hWf

theorem foldl_preserves_inv (ops : List Op) :
    ∀ s : ClientState, ClientInv s →
      ClientInv (ops.foldl (fun s op => step op s) s) := by
  induction ops with
  | nil => intro s h; exact h
  | cons op rest ih =>
    intro s h
    exact ih (step op s) (step_preserves_inv op s h)

/-! Section: Claims -/

/-- C1 counterexample: the claim says `/auth/logout` is never rate
limited for any sequence of same-caller requests, but the rate-limit
plugin installed on `authRoute` (max 5) also guards the routes
registered after it on the same instance: the sixth request to
`/auth/logout` from one caller within a window is rejected with
`rateLimitExceeded`. -/
theorem logout_sixth_request_rate_limited :
    processRequests (routeLimit authRoute Method.post "/auth/logout") 0
        [true, true, true, true, true, true] =
      [Outcome.allowed, Outcome.allowed, Outcome.allowed, Outcome.allowed,
        Outcome.allowed, Outcome.rateLimitExceeded] := by
  rfl

/-- C1 (amended): `/auth/logout`, `/auth/logout-all` and `/auth/profile`
are guarded by the same scoped 5-per-window limiter that `authRoute`
installs for `/auth/register` and `/auth/login`; once five requests from
the same caller have been counted within a window, a further request to
any of them is rejected with `rateLimitExceeded`. -/
theorem auth_session_routes_share_limiter (c : Nat) (h : 5 ≤ c) :
    routeLimit authRoute Method.post "/auth/logout" = some authLimiter ∧
    routeLimit authRoute Method.post "/auth/logout-all" = some authLimiter ∧
    routeLimit authRoute Method.get "/auth/profile" = some authLimiter ∧
    processRequests (some authLimiter) c [true] = [Outcome.rateLimitExceeded] := by
  refine ⟨rfl, rfl, rfl, ?_⟩
  simp [processRequests, authLimiter, h]

/-- C1 witness: the amended statement at the window boundary `c = 5`. -/
theorem auth_session_routes_share_limiter_witness :
    routeLimit authRoute Method.post "/auth/logout" = some authLimiter ∧
    routeLimit authRoute Method.post "/auth/logout-all" = some authLimiter ∧
    routeLimit authRoute Method.get "/auth/profile" = some authLimiter ∧
    processRequests (some authLimiter) 5 [true] = [Outcome.rateLimitExceeded] :=
  auth_session_routes_share_limiter 5 (by decide)

/-- C2 counterexample: with a malformed blob stored under the session
key, rehydration raises the parse error instead of treating it as "no
session", and the stored key is not deleted (the user does stay null). -/
theorem rehydrate_malformed_raises_and_keeps_key :
    (getUser ⟨some Blob.malformed, none⟩).1 =
        Except.error RehydrateError.parseError ∧
    (getUser ⟨some Blob.malformed, none⟩).2.store = some Blob.malformed ∧
    (getUser ⟨some Blob.malformed, none⟩).2.user = none := by
  exact ⟨rfl, rfl, rfl⟩

/-- C2 (amended): a missing stored value is treated as "no session" —
rehydration returns without error, publishes no user and leaves the
store untouched; a malformed stored value, however, raises the parse
error out of `getUser`, leaves the user unchanged (null at startup) and
does not delete the stored key. -/
theorem rehydrate_missing_ok_malformed_raises (s t : ClientState)
    (hs : s.store = none) (ht : t.store = some Blob.malformed) :
    getUser s = (Except.ok (), s) ∧
    getUser t = (Except.error RehydrateError.parseError, t) := by
  constructor
  · rcases s with ⟨sStore, sUser⟩
    cases hs
    rfl
  · rcases t with ⟨tStore, tUser⟩
    cases ht
    rfl

/-- C2 witness: the amended statement at a missing value and at a
concrete malformed value. -/
theorem rehydrate_missing_ok_malformed_raises_witness :
    getUser ⟨none, none⟩ = (Except.ok (), ⟨none, none⟩) ∧
    getUser ⟨some Blob.malformed, none⟩ =
      (Except.error RehydrateError.parseError, ⟨some Blob.malformed, none⟩) :=
  rehydrate_missing_ok_malformed_raises ⟨none, none⟩ ⟨some Blob.malformed, none⟩ rfl rfl

/-- C3 counterexample: when the server logout call fails, the secure-store
delete is never attempted (the `catch` is entered before the delete
line), refuting the claim that local cleanup is still attempted; the
failure is surfaced as the "Failed to logout" toast. -/
theorem signOut_api_failure_no_delete_attempt :
    (signOut false ⟨some (Blob.valid ⟨1, "a@x.com"⟩), some ⟨1, "a@x.com"⟩⟩).deleteAttempted
        = false ∧
    (signOut false ⟨some (Blob.valid ⟨1, "a@x.com"⟩), some ⟨1, "a@x.com"⟩⟩).toasts
        = ["Failed to logout"] := by
  exact ⟨rfl, rfl⟩

/-- C3 (amended): when the server logout call fails, `signOut` does not
attempt the local secure-store delete; the failure is caught (no crash)
and surfaced as the user-visible "Failed to logout" toast, with the
client state left unchanged. -/
theorem signOut_api_failure_caught_without_cleanup (s : ClientState) :
    signOut false s = ⟨s, false, ["Failed to logout"]⟩ :=
  rfl

/-- C4: on a successful `signIn` (and likewise `createUser`) the session
record is persisted to secure storage strictly before the user is
published: the event trace is exactly API call, then persist, then
publish (so no point of the execution has the user published without the
persisted record), and the final state holds both the stored record and
the user. -/
theorem signIn_persists_before_publish (u : User) (s : ClientState) :
    (signIn (Except.ok u) true s).1 = ⟨some (serializeUser u), some u⟩ ∧
    (signIn (Except.ok u) true s).2 = [Ev.apiCallEv, Ev.persistEv, Ev.publishEv] ∧
    (createUser (Except.ok u) true s).1 = ⟨some (serializeUser u), some u⟩ ∧
    (createUser (Except.ok u) true s).2 = [Ev.apiCallEv, Ev.persistEv, Ev.publishEv] ∧
    [Ev.apiCallEv, Ev.persistEv, Ev.publishEv].indexOf Ev.persistEv <
      [Ev.apiCallEv, Ev.persistEv, Ev.publishEv].indexOf Ev.publishEv := by
  exact ⟨rfl, rfl, rfl, rfl, by decide⟩

/-- C5: in every client state reachable from a fresh install by any
sequence of sign-in, registration, sign-out and restart-plus-rehydration
operations, including failing ones, the in-memory `AuthState` user is
non-null exactly when the secure credential store holds a session value
(a value is absent only initially or after a sign-out cleared it). -/
theorem authstate_user_iff_stored_session (ops : List Op) :
    (runOps ops).user.isSome = (runOps ops).store.isSome :=
  (foldl_preserves_inv ops initialClientState ⟨rfl, by simp [initialClientState]⟩).1

/-- C6: the route guard factors through exactly the specified decision
table on (navigation readiness, signed-in?, in-auth-group?): no redirect
before navigation is ready, redirect to sign-in when signed out outside
the auth group, redirect home when signed in inside the auth group, and
no action otherwise. -/
theorem guard_matches_decision_table (user : Option User) (segments : List String)
    (nav : Option NavState) :
    useProtectedRoute user segments nav =
      guardSpec (navReady nav) user.isSome
        (decide (segments.head? = some "(auth)")) := by
  cases h : navReady nav <;>
    cases user <;>
      by_cases hseg : segments.head? = some "(auth)" <;>
        simp [useProtectedRoute, guardSpec, h, hseg]

/-- C7: the rate-limit configuration of the guarded routes matches the
spec table: `/auth/register` and `/auth/login` carry the 5-per-window
limiter scoped by the generated key with `countFailedRequest` off (every
request counts), while `/auth/reset-password`,
`/auth/reset-password/:token` and `/auth/email-verification` carry the
3-per-window limiter with `countFailedRequest` on (only failed requests
count). -/
theorem rate_limit_config_matches_table :
    routeLimit authRoute Method.post "/auth/register" =
        some ⟨5, Scoping.scoped, KeyGen.rateLimiterkeyGenerator, false⟩ ∧
    routeLimit authRoute Method.post "/auth/login" =
        some ⟨5, Scoping.scoped, KeyGen.rateLimiterkeyGenerator, false⟩ ∧
    routeLimit passwordResetRoute Method.post "/auth/reset-password" =
        some ⟨3, Scoping.scoped, KeyGen.rateLimiterkeyGenerator, true⟩ ∧
    routeLimit passwordResetRoute Method.post "/auth/reset-password/:token" =
        some ⟨3, Scoping.scoped, KeyGen.rateLimiterkeyGenerator, true⟩ ∧
    routeLimit emailVerificationRoute Method.post "/auth/email-verification" =
        some ⟨3, Scoping.scoped, KeyGen.rateLimiterkeyGenerator, true⟩ ∧
    (∀ ok : Bool, countsRequest authLimiter ok = true) ∧
    (∀ ok : Bool, countsRequest tokenLimiter ok = !ok) := by
  refine ⟨rfl, rfl, rfl, rfl, rfl, ?_, ?_⟩ <;> decide

/-- C8: `signOut` publishes a null user only after both the server revoke
call and the local delete succeed — in that case the store and the user
are cleared with no toast; if either step fails, the in-memory user is
left untouched and the "Failed to logout" toast is shown. -/
theorem signOut_clears_user_iff_full_success (apiOk : Bool) (s : ClientState) :
    (apiOk = true ∧ s.store.isSome = true ∧
      signOut apiOk s = ⟨⟨none, none⟩, true, []⟩) ∨
    ((signOut apiOk s).state.user = s.user ∧
      (signOut apiOk s).toasts = ["Failed to logout"]) := by
  cases apiOk with
  | false => exact Or.inr ⟨rfl, rfl⟩
  | true =>
    rcases s with ⟨st, u⟩
    cases st with
    | none => exact Or.inr ⟨rfl, rfl⟩
    | some b => exact Or.inl ⟨rfl, rfl, rfl⟩

/-- C9: when the login or register API call fails, `signIn` and
`createUser` leave the client state exactly as it was: the state is
returned unchanged and no persist event occurs in the trace. -/
theorem failed_auth_calls_leave_state_unchanged (e : ApiFailure) (p : Bool)
    (s : ClientState) :
    (signIn (Except.error e) p s).1 = s ∧
    (createUser (Except.error e) p s).1 = s ∧
    Ev.persistEv ∉ (signIn (Except.error e) p s).2 ∧
    Ev.persistEv ∉ (createUser (Except.error e) p s).2 := by
  refine ⟨rfl, rfl, ?_, ?_⟩ <;> simp [signIn, createUser]

/-- C10: the store's `setUser` resolves its argument against the previous
user, leaves `isSignUp` unchanged when the optional argument is omitted,
sets it to exactly the provided value otherwise, and touches no field of
the store other than `user` and `isSignUp` (the result is fully
determined as this record). -/
theorem setUser_updates_user_and_isSignUp_only (arg : SetUserArg)
    (o : Option Bool) (st : UserState) :
    setUser arg o st = ⟨newUserOf arg st.user, o.getD st.isSignUp⟩ := by
  cases arg <;> cases o <;> rfl

end TodoPWA
